import Mathlib

/-!
# Verification of the quill-image-resizer controller

Shallow embedding of `src/quill-image-resizer/src/index.ts` (class
`QuillImageResizer`).  Pixel quantities (image dimensions, pointer deltas,
rectangle coordinates) are modelled over `ℚ`: the source computes with JS
numbers and every concrete scenario in the specification uses small exact
values, so rational arithmetic is the faithful exact model.

The embedding has two layers:

* the pure resize arithmetic of the `onMouseMove` closure
  (index.ts lines 133-149);
* a state machine for the controller object: its mutable fields
  (`overlay`, `selectedImage`, `resizerHandle`, `deleteButton`,
  `isResizing`), the listeners it has attached, and the document-visible
  effects (overlay nodes in the DOM, `deleteText` calls, width/height
  attribute writes on the image blot).  Each event handler of the class
  becomes a function `ResizerState → ResizerState`; `step` dispatches an
  incoming DOM/editor event to the handler, gated on whether the
  corresponding listener is currently attached.
-/

set_option autoImplicit false

namespace QuillImageResizer

/-- The rectangle written into the overlay's style by
`updateOverlayPosition` (index.ts lines 185-188). -/
structure Rect where
  top : ℚ
  left : ℚ
  width : ℚ
  height : ℚ
deriving Repr, DecidableEq

/-- The content-model node `quill.scroll.find` returns for an image:
its document offset (`quill.getIndex(blot)`), its `blot.length()`, and
whether its `domNode` is an `HTMLImageElement` (index.ts lines 227-230,
260-261). -/
structure Blot where
  index : Nat
  length : Nat
  isImage : Bool
deriving Repr, DecidableEq

/-- The host-editor / DOM environment the controller reads from.  Images
are identified by `Nat`.  `pos i` is image `i`'s bounding-rect top/left
minus the editor root's bounding-rect top/left; `dims i` is image `i`'s
rendered width/height before any resize by this controller; `find i` is
`quill.scroll.find` on image `i`'s element. -/
structure EditorEnv where
  pos : Nat → ℚ × ℚ
  dims : Nat → ℚ × ℚ
  find : Nat → Option Blot

/-- The controller's mutable fields (index.ts lines 10-16), the listeners
it currently has attached, and the document-visible effects.
`overlayCount` counts overlay nodes attached to the document;
`docMoveUp` is the document-level mousemove/mouseup listener pair of an
active resize session; `sessW`/`sessH` are the `startWidth`/`startHeight`
captured at pointer-down; `dimsOverride` records the width/height the
controller has written onto image elements; `docDeletes` records
`quill.deleteText(index, length)` calls; `blotWrites` records the
width/height attribute pairs written onto image blots. -/
structure ResizerState where
  overlay : Option Rect
  selectedImage : Option Nat
  resizerHandle : Bool
  deleteButton : Bool
  isResizing : Bool
  overlayCount : Nat
  rootClick : Bool
  rootScroll : Bool
  onBlur : Bool
  onTextChange : Bool
  docMoveUp : Bool
  sessW : ℚ
  sessH : ℚ
  dimsOverride : List (Nat × ℚ × ℚ)
  docDeletes : List (Nat × Nat)
  blotWrites : List (Nat × ℚ × ℚ)
deriving Repr, DecidableEq

/-- The state right after `constructor(quill)` (index.ts lines 22-25):
no overlay, no selection, not resizing, and the four persistent listeners
of `addEventListeners` (lines 30-38) attached.  The constructor takes no
configuration object. -/
def init : ResizerState where
  overlay := none
  selectedImage := none
  resizerHandle := false
  deleteButton := false
  isResizing := false
  overlayCount := 0
  rootClick := true
  rootScroll := true
  onBlur := true
  onTextChange := true
  docMoveUp := false
  sessW := 0
  sessH := 0
  dimsOverride := []
  docDeletes := []
  blotWrites := []

/-- Current rendered width/height of image `i`: the last value the
controller wrote onto it, else its environment dimensions. -/
def curDims (env : EditorEnv) (ov : List (Nat × ℚ × ℚ)) (i : Nat) : ℚ × ℚ :=
  (ov.lookup i).getD (env.dims i)

/-- `aspectRatio = startHeight / startWidth` captured once at
pointer-down (index.ts line 133). -/
def aspectRatio (startWidth startHeight : ℚ) : ℚ :=
  startHeight / startWidth

/-- The dimension arithmetic of one `onMouseMove` step of a resize
session (index.ts lines 139-149): `newWidth = Math.max(10, startWidth +
deltaX)`, `newHeight = newWidth * aspectRatio`, then each dimension is
clamped up to 10 if below 10.  Returns (applied width, applied height). -/
def onMouseMove (startWidth startHeight deltaX : ℚ) : ℚ × ℚ :=
  let newWidth := max 10 (startWidth + deltaX)
  let newHeight := newWidth * aspectRatio startWidth startHeight
  let newWidth2 := if newWidth < 10 then 10 else newWidth
  let newHeight2 := if newHeight < 10 then 10 else newHeight
  (newWidth2, newHeight2)

set_option linter.unusedVariables false in
/-- The `onMouseMove` handler as a function of the full pointer movement:
the handler receives the mouse event but reads only `e.clientX`
(index.ts line 139); `event.clientY` is deliberately unused (line 125).
`deltaY` is therefore ignored. -/
def onMouseMoveEvent (startWidth startHeight deltaX deltaY : ℚ) : ℚ × ℚ :=
  onMouseMove startWidth startHeight deltaX

/-- Follows the spec's words, for comparison with `onMouseMove`:
"new width = max(minimum dimension, start width + delta)... new height =
new width × aspect ratio, then clamp height to minimum and back-derive
width if the clamp triggered". -/
def resizeStepSpec (startWidth startHeight deltaX : ℚ) : ℚ × ℚ :=
  let r := aspectRatio startWidth startHeight
  let newWidth := max 10 (startWidth + deltaX)
  let newHeight := newWidth * r
  if newHeight < 10 then (10 / r, 10) else (newWidth, newHeight)

/-- Follows the spec's words, for comparison with `onMouseMoveEvent`:
with preserveAspectRatio = false, "new height is independently derived
from vertical delta with its own floor". -/
def specIndependentHeight (startHeight deltaY : ℚ) : ℚ :=
  max 10 (startHeight + deltaY)

/-- `updateOverlayPosition` (index.ts lines 177-189): no-op unless both a
selected image and an overlay exist; otherwise writes the image's
bounding rect relative to the editor root into the overlay's style.  The
rect's width/height are the image's current rendered dimensions. -/
def updateOverlayPosition (env : EditorEnv) (s : ResizerState) : ResizerState :=
  match s.selectedImage, s.overlay with
  | some i, some _ =>
      { s with overlay := some ⟨(env.pos i).1, (env.pos i).2,
                               (curDims env s.dimsOverride i).1,
                               (curDims env s.dimsOverride i).2⟩ }
  | _, _ => s

/-- `removeOverlay` (index.ts lines 194-215): if an overlay node is live,
detach the handle's and delete button's listeners and remove the node
from the document; then null out the overlay, handle and delete-button
fields and deselect the image. -/
def removeOverlay (s : ResizerState) : ResizerState :=
  { s with
    overlayCount := if s.overlay.isSome then s.overlayCount - 1 else s.overlayCount
    overlay := none
    resizerHandle := false
    deleteButton := false
    selectedImage := none }

/-- `createOverlay` (index.ts lines 91-96): create a fresh overlay div
(no position set yet) and append it to the editor's container. -/
def createOverlay (s : ResizerState) : ResizerState :=
  { s with overlay := some ⟨0, 0, 0, 0⟩, overlayCount := s.overlayCount + 1 }

/-- `addResizeHandle` (index.ts lines 101-110): guard on the overlay,
then attach the handle with its mousedown listener. -/
def addResizeHandle (s : ResizerState) : ResizerState :=
  if s.overlay.isSome then { s with resizerHandle := true } else s

/-- `addDeleteButton` (index.ts lines 239-250): guard on the overlay,
then attach the delete button with its click listener. -/
def addDeleteButton (s : ResizerState) : ResizerState :=
  if s.overlay.isSome then { s with deleteButton := true } else s

/-- `selectImage` (index.ts lines 69-86): if the image is already
selected, just re-sync the overlay position; otherwise remove any
existing overlay, record the selection, create and position a fresh
overlay, and add the handle and delete button. -/
def selectImage (env : EditorEnv) (i : Nat) (s : ResizerState) : ResizerState :=
  if s.selectedImage = some i then
    updateOverlayPosition env s
  else
    let s1 := removeOverlay s
    let s2 := { s1 with selectedImage := some i }
    let s3 := createOverlay s2
    let s4 := updateOverlayPosition env s3
    let s5 := addResizeHandle s4
    addDeleteButton s5

/-- `handleTextChange` (index.ts lines 44-48): remove the overlay only
when no resize is in progress. -/
def handleTextChange (s : ResizerState) : ResizerState :=
  if s.isResizing then s else removeOverlay s

/-- `onMouseDownResize` up to the listener attachment (index.ts lines
116-133, 169-170): bail out if no image is selected; otherwise set the
resizing flag, capture the start width/height of the selected image, and
attach the document-level mousemove/mouseup listener pair. -/
def onMouseDownResize (env : EditorEnv) (s : ResizerState) : ResizerState :=
  match s.selectedImage with
  | none => s
  | some i =>
      { s with
        isResizing := true
        sessW := (curDims env s.dimsOverride i).1
        sessH := (curDims env s.dimsOverride i).2
        docMoveUp := true }

/-- One firing of the session's `onMouseMove` listener (index.ts lines
135-152), `deltaX` being `e.clientX - startX`.  If the image has been
deselected mid-session the handler faults on the null dereference at
line 148 before writing anything; otherwise it writes the computed
dimensions onto the image and re-syncs the overlay. -/
def onMouseMoveStep (env : EditorEnv) (deltaX : ℚ) (s : ResizerState) : ResizerState :=
  match s.selectedImage with
  | none => s
  | some i =>
      updateOverlayPosition env
        { s with dimsOverride := (i, onMouseMove s.sessW s.sessH deltaX) :: s.dimsOverride }

/-- `updateImageBlotDimensions` (index.ts lines 257-275): if an image is
selected, its blot is found, and the blot's domNode is an image element,
write the image's current width/height as attributes on that node. -/
def updateImageBlotDimensions (env : EditorEnv) (s : ResizerState) : ResizerState :=
  match s.selectedImage with
  | none => s
  | some i =>
      match env.find i with
      | some b =>
          if b.isImage then
            { s with blotWrites :=
                s.blotWrites ++ [(i, (curDims env s.dimsOverride i).1,
                                     (curDims env s.dimsOverride i).2)] }
          else s
      | none => s

/-- One firing of the session's `onMouseUp` listener (index.ts lines
154-167): detach the mousemove/mouseup pair, then (faulting on the null
dereference at line 158 if the image was deselected mid-session) restore
the display style, write the dimensions into the blot, clear the
resizing flag, and re-sync the overlay if an image is still selected. -/
def onMouseUpStep (env : EditorEnv) (s : ResizerState) : ResizerState :=
  match s.selectedImage with
  | none => { s with docMoveUp := false }
  | some _ =>
      updateOverlayPosition env
        { updateImageBlotDimensions env { s with docMoveUp := false } with
          isResizing := false }

/-- `deleteImage` (index.ts lines 220-234): if an image is selected and
its blot is found, delete `blot.length()` characters of document content
at the blot's index; in every case tear the overlay down afterwards. -/
def deleteImage (env : EditorEnv) (s : ResizerState) : ResizerState :=
  let s1 :=
    match s.selectedImage with
    | none => s
    | some i =>
        match env.find i with
        | some b => { s with docDeletes := s.docDeletes ++ [(b.index, b.length)] }
        | none => s
  removeOverlay s1

/-- `destroy` (index.ts lines 281-287): remove any live overlay, then
detach the four persistent listeners registered by `addEventListeners`.
The document-level mousemove/mouseup pair of an active resize session is
not touched. -/
def destroy (s : ResizerState) : ResizerState :=
  let s1 := removeOverlay s
  { s1 with rootClick := false, rootScroll := false, onBlur := false, onTextChange := false }

/-- The DOM/editor events the controller can receive.  `clickImage i` is
a click on the editor root whose target is image `i`; `clickOutside` is a
click on the root that is neither on an image nor inside the overlay;
`clickInOverlay` is a click inside the overlay on a non-image target. -/
inductive Event where
  | clickImage (i : Nat)
  | clickOutside
  | clickInOverlay
  | scroll
  | blur
  | textChange
  | mouseDownResize
  | mouseMove (deltaX : ℚ)
  | mouseUp
  | deleteClick
  | destroyCall
deriving Repr, DecidableEq

/-- Event dispatch: each handler runs only while its listener is
attached.  `clickImage`/`clickOutside`/`clickInOverlay` follow
`handleEditorClick` (index.ts lines 54-63); the rest dispatch to the
handler functions above. -/
def step (env : EditorEnv) : Event → ResizerState → ResizerState
  | .clickImage i, s => if s.rootClick then selectImage env i s else s
  | .clickOutside, s =>
      if s.rootClick then (if s.overlay.isSome then removeOverlay s else s) else s
  | .clickInOverlay, s => s
  | .scroll, s => if s.rootScroll then updateOverlayPosition env s else s
  | .blur, s => if s.onBlur then removeOverlay s else s
  | .textChange, s => if s.onTextChange then handleTextChange s else s
  | .mouseDownResize, s => if s.resizerHandle then onMouseDownResize env s else s
  | .mouseMove dx, s => if s.docMoveUp then onMouseMoveStep env dx s else s
  | .mouseUp, s => if s.docMoveUp then onMouseUpStep env s else s
  | .deleteClick, s => if s.deleteButton then deleteImage env s else s
  | .destroyCall, s => destroy s

/-- The structural invariant tying the controller's fields together:
the overlay exists iff an image is selected, the handle and delete
button exist iff the overlay does, and the number of overlay nodes in
the document matches. -/
def Inv (s : ResizerState) : Prop :=
  (s.overlay.isSome ↔ s.selectedImage.isSome)
  ∧ s.resizerHandle = s.overlay.isSome
  ∧ s.deleteButton = s.overlay.isSome
  ∧ s.overlayCount = (if s.overlay.isSome then 1 else 0)

instance (s : ResizerState) : Decidable (Inv s) := by
  unfold Inv; infer_instance

/-- States reachable from the freshly constructed controller by any
sequence of events. -/
inductive Reachable (env : EditorEnv) : ResizerState → Prop where
  | init : Reachable env init
  | step : ∀ (s : ResizerState) (e : Event), Reachable env s → Reachable env (step env e s)

/-- A concrete environment for witnesses: every image at offset (1, 2)
from the editor root, rendered 400×300, with no content-model mapping. -/
def envA : EditorEnv where
  pos := fun _ => (1, 2)
  dims := fun _ => (400, 300)
  find := fun _ => none

/-- A concrete environment whose image 0 maps to an image blot at
document index 5 with length 1. -/
def envB : EditorEnv where
  pos := fun _ => (1, 2)
  dims := fun _ => (400, 300)
  find := fun i => if i = 0 then some ⟨5, 1, true⟩ else none

/-- A concrete state with image 0 selected and the overlay live. -/
def sSel : ResizerState := step envA (.clickImage 0) init

/-- A concrete state in the middle of a resize session on image 0. -/
def sResizing : ResizerState :=
  step envB .mouseDownResize (step envB (.clickImage 0) init)

/-! ## General lemmas about the resize arithmetic -/

theorem onMouseMove_eq (w h dx : ℚ) :
    onMouseMove w h dx =
      (max 10 (w + dx),
       if max 10 (w + dx) * aspectRatio w h < 10 then 10
       else max 10 (w + dx) * aspectRatio w h) := by
  have hW : ¬ max 10 (w + dx) < 10 := not_lt.mpr (le_max_left 10 (w + dx))
  simp [onMouseMove, hW]

/-! ## C1: aspect-ratio preservation and the minimum floor -/

/-- C1 counterexample: the claim says a 400×300 image dragged left by
450px yields width 10/0.75 = 40/3 and height 10 (floor-then-back-derive,
as `resizeStepSpec` does).  The code yields width 10 and height 10: the
width is never re-derived from the ratio, and at this input the applied
height is not width × ratio. -/
theorem c1_backderive_counterexample :
    onMouseMove 400 300 (-450) = (10, 10)
    ∧ resizeStepSpec 400 300 (-450) = (40 / 3, 10)
    ∧ (onMouseMove 400 300 (-450)).1 ≠ 40 / 3
    ∧ (onMouseMove 400 300 (-450)).2
        ≠ (onMouseMove 400 300 (-450)).1 * aspectRatio 400 300 := by
  refine ⟨?_, ?_, ?_, ?_⟩ <;> norm_num [onMouseMove, resizeStepSpec, aspectRatio]

/-- C1 (amended): on every pointer-move with the ratio captured at
pointer-down, if the height floor is not engaged the applied height
equals the applied width times the ratio; if the height floor is engaged
the applied height is exactly the minimum (10) while the applied width
stays at max(10, startWidth + deltaX) and is not re-derived from the
ratio.  In particular a 400×300 image dragged left by 450px yields
width 10 and height 10. -/
theorem c1_resize_amended (w h dx : ℚ) :
    (10 ≤ max 10 (w + dx) * aspectRatio w h →
       (onMouseMove w h dx).2 = (onMouseMove w h dx).1 * aspectRatio w h)
    ∧ (max 10 (w + dx) * aspectRatio w h < 10 →
       onMouseMove w h dx = (max 10 (w + dx), 10))
    ∧ onMouseMove 400 300 (-450) = (10, 10) := by
  rw [onMouseMove_eq]
  refine ⟨fun hge => ?_, fun hlt => ?_, ?_⟩
  · rw [if_neg (not_lt.mpr hge)]
  · rw [if_pos hlt]
  · norm_num [onMouseMove, aspectRatio]

/-- C1 witness: at a 400×300 start, dragging right by 100px keeps the
ratio (width 500, height 375), and dragging left by 450px floors both
dimensions at 10. -/
theorem c1_resize_amended_witness :
    (onMouseMove 400 300 100).2 = (onMouseMove 400 300 100).1 * aspectRatio 400 300
    ∧ onMouseMove 400 300 (-450) = (max 10 (400 + -450), 10) :=
  ⟨(c1_resize_amended 400 300 100).1 (by norm_num [aspectRatio]),
   (c1_resize_amended 400 300 (-450)).2.1 (by norm_num [aspectRatio])⟩

/-! ## C2: configuration and the non-aspect-preserving mode -/

/-- C2 counterexample: the claim says that with preserveAspectRatio =
false the height responds only to the vertical delta with its own floor
(`specIndependentHeight`).  The code has no such mode: a purely vertical
drag of +100px on a 400×300 image leaves the dimensions at (400, 300),
not height 400. -/
theorem c2_no_independent_height_counterexample :
    onMouseMoveEvent 400 300 0 100 = (400, 300)
    ∧ specIndependentHeight 300 100 = 400
    ∧ (onMouseMoveEvent 400 300 0 100).2 ≠ specIndependentHeight 300 100 := by
  refine ⟨?_, ?_, ?_⟩ <;>
    norm_num [onMouseMoveEvent, onMouseMove, aspectRatio, specIndependentHeight]

/-- C2 (amended): the constructor takes only the editor instance — there
is no configuration object and no preserveAspectRatio option.  Resizing
always preserves the captured aspect ratio: the vertical pointer delta is
ignored, the applied width is max(10, startWidth + deltaX), and the
applied height is derived from that width by the captured ratio, clamped
up to the 10px floor. -/
theorem c2_no_config_always_aspect (w h dx dy dy' : ℚ) :
    onMouseMoveEvent w h dx dy = onMouseMoveEvent w h dx dy'
    ∧ onMouseMoveEvent w h dx dy = onMouseMove w h dx
    ∧ (onMouseMoveEvent w h dx dy).1 = max 10 (w + dx)
    ∧ (onMouseMoveEvent w h dx dy).2 =
        (if max 10 (w + dx) * aspectRatio w h < 10 then 10
         else max 10 (w + dx) * aspectRatio w h) := by
  refine ⟨rfl, rfl, ?_, ?_⟩ <;> rw [onMouseMoveEvent, onMouseMove_eq]

/-! ## C5: the minimum-dimension floor -/

/-- C5: on every pointer-move of every resize session, regardless of the
drag delta, the width and the height applied to the image are each at
least the fixed 10px floor. -/
theorem c5_minimum_floor (w h dx : ℚ) :
    10 ≤ (onMouseMove w h dx).1 ∧ 10 ≤ (onMouseMove w h dx).2 := by
  rw [onMouseMove_eq]
  constructor
  · exact le_max_left 10 (w + dx)
  · dsimp only
    split
    · exact le_refl 10
    · exact not_lt.mp (by assumption)

/-! ## C10: ratio at least one makes the height clamp unreachable -/

/-- C10: if the session starts with height ≥ width (captured ratio ≥ 1),
the height-minimum clamp test `newHeight < 10` is false on every
pointer-move — the computed height is already at least 10 — so the
applied height equals the applied width times the captured ratio
exactly, for every drag delta. -/
theorem c10_ratio_ge_one_exact (w h dx : ℚ) (hw : 0 < w) (hr : w ≤ h) :
    10 ≤ max 10 (w + dx) * aspectRatio w h
    ∧ (onMouseMove w h dx).2 = (onMouseMove w h dx).1 * aspectRatio w h := by
  have hratio : 1 ≤ aspectRatio w h := by
    rw [aspectRatio]
    exact (one_le_div hw).mpr hr
  have hW : (10 : ℚ) ≤ max 10 (w + dx) := le_max_left 10 (w + dx)
  have hge : 10 ≤ max 10 (w + dx) * aspectRatio w h := by
    calc (10 : ℚ) = 10 * 1 := by ring
    _ ≤ max 10 (w + dx) * aspectRatio w h :=
        mul_le_mul hW hratio zero_le_one (le_trans (by norm_num) hW)
  refine ⟨hge, ?_⟩
  rw [onMouseMove_eq]
  dsimp only
  rw [if_neg (not_lt.mpr hge)]

/-- C10 witness: a 100×200 session dragged left by 500px floors the
width at 10 and still yields height = width × 2 exactly. -/
theorem c10_ratio_ge_one_exact_witness :
    10 ≤ max 10 ((100 : ℚ) + -500) * aspectRatio 100 200
    ∧ (onMouseMove 100 200 (-500)).2
        = (onMouseMove 100 200 (-500)).1 * aspectRatio 100 200 :=
  c10_ratio_ge_one_exact 100 200 (-500) (by norm_num) (by norm_num)

/-! ## Projection lemmas for the handler functions -/

theorem updateOverlayPosition_selectedImage (env : EditorEnv) (s : ResizerState) :
    (updateOverlayPosition env s).selectedImage = s.selectedImage := by
  unfold updateOverlayPosition; split <;> rfl

theorem updateOverlayPosition_isSome (env : EditorEnv) (s : ResizerState) :
    (updateOverlayPosition env s).overlay.isSome = s.overlay.isSome := by
  unfold updateOverlayPosition; split
  · rename_i i r heq1 heq2
    simp [heq2]
  · rfl

theorem updateOverlayPosition_fields (env : EditorEnv) (s : ResizerState) :
    (updateOverlayPosition env s).resizerHandle = s.resizerHandle
    ∧ (updateOverlayPosition env s).deleteButton = s.deleteButton
    ∧ (updateOverlayPosition env s).overlayCount = s.overlayCount
    ∧ (updateOverlayPosition env s).dimsOverride = s.dimsOverride := by
  unfold updateOverlayPosition
  split <;> exact ⟨rfl, rfl, rfl, rfl⟩

/-! ## The structural invariant is preserved by every event -/

theorem inv_init : Inv init := by decide

theorem inv_updateOverlayPosition (env : EditorEnv) (s : ResizerState) (h : Inv s) :
    Inv (updateOverlayPosition env s) := by
  obtain ⟨h1, h2, h3, h4⟩ := h
  refine ⟨?_, ?_, ?_, ?_⟩ <;>
    rw [updateOverlayPosition_isSome] <;>
    first
      | rwa [updateOverlayPosition_selectedImage]
      | rw [(updateOverlayPosition_fields env s).1]; exact h2
      | rw [(updateOverlayPosition_fields env s).2.1]; exact h3
      | rw [(updateOverlayPosition_fields env s).2.2.1]; exact h4

theorem inv_removeOverlay (s : ResizerState) (h : Inv s) : Inv (removeOverlay s) := by
  obtain ⟨h1, h2, h3, h4⟩ := h
  rcases hov : s.overlay with _ | r <;>
    simp_all [Inv, removeOverlay]

theorem selectImage_of_selected (env : EditorEnv) (i : Nat) (s : ResizerState)
    (h : s.selectedImage = some i) :
    selectImage env i s = updateOverlayPosition env s := by
  unfold selectImage; rw [if_pos h]

theorem selectImage_fresh (env : EditorEnv) (i : Nat) (s : ResizerState)
    (h : ¬ s.selectedImage = some i) :
    selectImage env i s =
      { removeOverlay s with
        selectedImage := some i
        overlay := some ⟨(env.pos i).1, (env.pos i).2,
                         (curDims env s.dimsOverride i).1,
                         (curDims env s.dimsOverride i).2⟩
        resizerHandle := true
        deleteButton := true
        overlayCount := (removeOverlay s).overlayCount + 1 } := by
  unfold selectImage
  rw [if_neg h]
  rfl

theorem selectImage_selectedImage (env : EditorEnv) (i : Nat) (s : ResizerState) :
    (selectImage env i s).selectedImage = some i := by
  by_cases h : s.selectedImage = some i
  · rw [selectImage_of_selected env i s h, updateOverlayPosition_selectedImage, h]
  · rw [selectImage_fresh env i s h]

theorem inv_selectImage (env : EditorEnv) (i : Nat) (s : ResizerState) (h : Inv s) :
    Inv (selectImage env i s) := by
  by_cases hsel : s.selectedImage = some i
  · rw [selectImage_of_selected env i s hsel]
    exact inv_updateOverlayPosition env s h
  · rw [selectImage_fresh env i s hsel]
    obtain ⟨h1, h2, h3, h4⟩ := h
    refine ⟨by simp, rfl, rfl, ?_⟩
    rcases hov : s.overlay with _ | r <;> simp_all [removeOverlay]

theorem inv_handleTextChange (s : ResizerState) (h : Inv s) : Inv (handleTextChange s) := by
  unfold handleTextChange
  split
  · exact h
  · exact inv_removeOverlay s h

theorem inv_onMouseDownResize (env : EditorEnv) (s : ResizerState) (h : Inv s) :
    Inv (onMouseDownResize env s) := by
  unfold onMouseDownResize
  split
  · exact h
  · exact h

theorem inv_dimsOverride (s : ResizerState) (d : List (Nat × ℚ × ℚ)) (h : Inv s) :
    Inv { s with dimsOverride := d } := h

theorem inv_onMouseMoveStep (env : EditorEnv) (dx : ℚ) (s : ResizerState) (h : Inv s) :
    Inv (onMouseMoveStep env dx s) := by
  unfold onMouseMoveStep
  split
  · exact h
  · exact inv_updateOverlayPosition env _ h

theorem inv_updateImageBlotDimensions (env : EditorEnv) (s : ResizerState) (h : Inv s) :
    Inv (updateImageBlotDimensions env s) := by
  unfold updateImageBlotDimensions
  split
  · exact h
  · split
    · split
      · exact h
      · exact h
    · exact h

theorem inv_onMouseUpStep (env : EditorEnv) (s : ResizerState) (h : Inv s) :
    Inv (onMouseUpStep env s) := by
  unfold onMouseUpStep
  split
  · exact h
  · exact inv_updateOverlayPosition env _
      (inv_updateImageBlotDimensions env { s with docMoveUp := false } h)

theorem inv_deleteImage (env : EditorEnv) (s : ResizerState) (h : Inv s) :
    Inv (deleteImage env s) := by
  unfold deleteImage
  split
  · exact inv_removeOverlay s h
  · split
    · exact inv_removeOverlay _ h
    · exact inv_removeOverlay s h

theorem inv_destroy (s : ResizerState) (h : Inv s) : Inv (destroy s) :=
  inv_removeOverlay s h

theorem inv_step (env : EditorEnv) (e : Event) (s : ResizerState) (h : Inv s) :
    Inv (step env e s) := by
  cases e with
  | clickImage i =>
      simp only [step]; split
      · exact inv_selectImage env i s h
      · exact h
  | clickOutside =>
      simp only [step]; split
      · split
        · exact inv_removeOverlay s h
        · exact h
      · exact h
  | clickInOverlay => exact h
  | scroll =>
      simp only [step]; split
      · exact inv_updateOverlayPosition env s h
      · exact h
  | blur =>
      simp only [step]; split
      · exact inv_removeOverlay s h
      · exact h
  | textChange =>
      simp only [step]; split
      · exact inv_handleTextChange s h
      · exact h
  | mouseDownResize =>
      simp only [step]; split
      · exact inv_onMouseDownResize env s h
      · exact h
  | mouseMove dx =>
      simp only [step]; split
      · exact inv_onMouseMoveStep env dx s h
      · exact h
  | mouseUp =>
      simp only [step]; split
      · exact inv_onMouseUpStep env s h
      · exact h
  | deleteClick =>
      simp only [step]; split
      · exact inv_deleteImage env s h
      · exact h
  | destroyCall => exact inv_destroy s h

theorem reachable_inv (env : EditorEnv) (s : ResizerState) (h : Reachable env s) :
    Inv s := by
  induction h with
  | init => exact inv_init
  | step s e _ ih => exact inv_step env e s ih

/-! ## C3: the overlay exists iff an image is selected -/

/-- C3: in every state reachable from the freshly constructed controller
by any sequence of handler invocations, the overlay field is non-null
exactly when the selected-image field is non-null. -/
theorem c3_overlay_iff_selected (env : EditorEnv) (s : ResizerState)
    (h : Reachable env s) :
    s.overlay.isSome ↔ s.selectedImage.isSome :=
  (reachable_inv env s h).1

/-- C3 witness: the state after clicking image 0 in the fresh controller
is reachable, and there the overlay and the selection are both present. -/
theorem c3_overlay_iff_selected_witness :
    ((step envA (.clickImage 0) init).overlay.isSome
      ↔ (step envA (.clickImage 0) init).selectedImage.isSome) :=
  c3_overlay_iff_selected envA (step envA (.clickImage 0) init)
    (Reachable.step init (.clickImage 0) Reachable.init)

/-! ## C4: text-change handling during and outside a resize -/

/-- C4: while the text-change listener is attached, a text-change with
the resizing flag set leaves the whole state unchanged, and a
text-change with the flag clear removes the overlay and clears the
selected-image reference. -/
theorem c4_text_change (env : EditorEnv) (s : ResizerState)
    (h : s.onTextChange = true) :
    step env .textChange { s with isResizing := true } = { s with isResizing := true }
    ∧ (step env .textChange { s with isResizing := false }).overlay = none
    ∧ (step env .textChange { s with isResizing := false }).selectedImage = none := by
  refine ⟨?_, ?_, ?_⟩ <;> simp [step, handleTextChange, removeOverlay, h]

/-- C4 witness: with image 0 selected, a text-change mid-resize keeps the
state; a text-change while idle deselects. -/
theorem c4_text_change_witness :
    step envA .textChange { sSel with isResizing := true } = { sSel with isResizing := true }
    ∧ (step envA .textChange { sSel with isResizing := false }).overlay = none
    ∧ (step envA .textChange { sSel with isResizing := false }).selectedImage = none :=
  c4_text_change envA sSel (by decide)

/-! ## C6: the delete control -/

/-- C6: activating the delete control with an image selected removes the
image's blot from the document at its current index with its current
length when the content-model mapping exists, and performs no document
deletion when the mapping is absent; in both cases the overlay is torn
down, leaving zero overlay nodes and a null selection. -/
theorem c6_delete_image (env : EditorEnv) (s : ResizerState) (i : Nat)
    (hinv : Inv s) (hsel : s.selectedImage = some i) :
    (step env .deleteClick s).overlay = none
    ∧ (step env .deleteClick s).selectedImage = none
    ∧ (step env .deleteClick s).overlayCount = 0
    ∧ (step env .deleteClick s).docDeletes =
        (match env.find i with
         | some b => s.docDeletes ++ [(b.index, b.length)]
         | none => s.docDeletes) := by
  obtain ⟨h1, h2, h3, h4⟩ := hinv
  have hov : s.overlay.isSome = true := h1.mpr (by simp [hsel])
  have hbtn : s.deleteButton = true := by rw [h3, hov]
  rcases hf : env.find i with _ | b <;>
    simp [step, deleteImage, removeOverlay, hbtn, hsel, hf, hov, h4]

/-- C6 witness: deleting image 0, whose content-model mapping is absent
in `envA`, tears the overlay down and leaves the document untouched. -/
theorem c6_delete_image_witness :
    (step envA .deleteClick sSel).overlay = none
    ∧ (step envA .deleteClick sSel).selectedImage = none
    ∧ (step envA .deleteClick sSel).overlayCount = 0
    ∧ (step envA .deleteClick sSel).docDeletes =
        (match envA.find 0 with
         | some b => sSel.docDeletes ++ [(b.index, b.length)]
         | none => sSel.docDeletes) :=
  c6_delete_image envA sSel 0 (by decide) (by decide)

/-! ## C8: pointer-up ends the resize session -/

/-- C8: on the pointer-up of a resize session whose image is still
selected and whose blot mapping is an image node, the controller
detaches the document-level move/up listener pair, writes the image's
current width/height pair onto the blot, clears the resizing flag, and
refreshes the overlay to the image's position and dimensions. -/
theorem c8_mouse_up (env : EditorEnv) (s : ResizerState) (i : Nat) (b : Blot)
    (hinv : Inv s) (hup : s.docMoveUp = true) (hsel : s.selectedImage = some i)
    (hfind : env.find i = some b) (himg : b.isImage = true) :
    (step env .mouseUp s).docMoveUp = false
    ∧ (step env .mouseUp s).isResizing = false
    ∧ (step env .mouseUp s).blotWrites =
        s.blotWrites ++ [(i, (curDims env s.dimsOverride i).1,
                             (curDims env s.dimsOverride i).2)]
    ∧ (step env .mouseUp s).overlay =
        some ⟨(env.pos i).1, (env.pos i).2,
              (curDims env s.dimsOverride i).1, (curDims env s.dimsOverride i).2⟩ := by
  obtain ⟨h1, h2, h3, h4⟩ := hinv
  have hov : s.overlay.isSome = true := h1.mpr (by simp [hsel])
  rcases ho : s.overlay with _ | r
  · rw [ho] at hov; simp at hov
  · refine ⟨?_, ?_, ?_, ?_⟩ <;>
      simp [step, onMouseUpStep, updateImageBlotDimensions, updateOverlayPosition,
            hup, hsel, hfind, himg, ho]

/-- C8 witness: ending the concrete resize session on image 0 detaches
the session listeners, writes (400, 300) onto the blot, clears the flag
and re-syncs the overlay. -/
theorem c8_mouse_up_witness :
    (step envB .mouseUp sResizing).docMoveUp = false
    ∧ (step envB .mouseUp sResizing).isResizing = false
    ∧ (step envB .mouseUp sResizing).blotWrites =
        sResizing.blotWrites ++ [(0, (curDims envB sResizing.dimsOverride 0).1,
                                     (curDims envB sResizing.dimsOverride 0).2)]
    ∧ (step envB .mouseUp sResizing).overlay =
        some ⟨(envB.pos 0).1, (envB.pos 0).2,
              (curDims envB sResizing.dimsOverride 0).1,
              (curDims envB sResizing.dimsOverride 0).2⟩ :=
  c8_mouse_up envB sResizing 0 ⟨5, 1, true⟩ (by decide) (by decide) (by decide)
    (by decide) (by decide)

/-! ## C9: destroy -/

/-- C9 counterexample: the claim says destroy() detaches every listener
the controller registered.  From the fresh controller, click image 0 and
press the resize handle (attaching the document-level mousemove/mouseup
pair), then call destroy(): the reached state still has that listener
pair attached. -/
theorem c9_destroy_leak_counterexample :
    Reachable envA
      (step envA .destroyCall (step envA .mouseDownResize (step envA (.clickImage 0) init)))
    ∧ (step envA .destroyCall
        (step envA .mouseDownResize (step envA (.clickImage 0) init))).docMoveUp = true :=
  ⟨Reachable.step _ _ (Reachable.step _ _ (Reachable.step _ _ Reachable.init)),
   by decide⟩

/-- C9 (amended): destroy() removes any live overlay, clears the
selection, and detaches the four persistent listeners it registered in
the constructor (click, scroll, blur, text-change); it is idempotent.
It does not detach the document-level mousemove/mouseup listeners of a
resize session in progress — those are only removed by the session's own
pointer-up. -/
theorem c9_destroy_idempotent (s : ResizerState) :
    destroy (destroy s) = destroy s
    ∧ (destroy s).overlay = none
    ∧ (destroy s).selectedImage = none
    ∧ (destroy s).rootClick = false
    ∧ (destroy s).rootScroll = false
    ∧ (destroy s).onBlur = false
    ∧ (destroy s).onTextChange = false
    ∧ (destroy s).docMoveUp = s.docMoveUp :=
  ⟨rfl, rfl, rfl, rfl, rfl, rfl, rfl, rfl⟩

/-! ## C7: selection is idempotent and last-selection-wins -/

theorem removeOverlay_updateOverlayPosition (env : EditorEnv) (s : ResizerState) :
    removeOverlay (updateOverlayPosition env s) = removeOverlay s := by
  unfold updateOverlayPosition
  split
  · rename_i i r hsel hov
    unfold removeOverlay
    simp [hov]
  · rfl

theorem selectImage_dimsOverride (env : EditorEnv) (i : Nat) (s : ResizerState) :
    (selectImage env i s).dimsOverride = s.dimsOverride := by
  by_cases h : s.selectedImage = some i
  · rw [selectImage_of_selected env i s h, (updateOverlayPosition_fields env s).2.2.2]
  · rw [selectImage_fresh env i s h]
    rfl

theorem removeOverlay_selectImage (env : EditorEnv) (i : Nat) (s : ResizerState) :
    removeOverlay (selectImage env i s) = removeOverlay s := by
  by_cases h : s.selectedImage = some i
  · rw [selectImage_of_selected env i s h, removeOverlay_updateOverlayPosition]
  · rw [selectImage_fresh env i s h]
    unfold removeOverlay
    simp

theorem selectImage_spec (env : EditorEnv) (i : Nat) (s : ResizerState) (hinv : Inv s) :
    (selectImage env i s).overlayCount = 1
    ∧ (selectImage env i s).overlay =
        some ⟨(env.pos i).1, (env.pos i).2,
              (curDims env s.dimsOverride i).1, (curDims env s.dimsOverride i).2⟩ := by
  obtain ⟨h1, h2, h3, h4⟩ := hinv
  by_cases h : s.selectedImage = some i
  · have hov : s.overlay.isSome = true := h1.mpr (by simp [h])
    rcases ho : s.overlay with _ | r
    · rw [ho] at hov; simp at hov
    · rw [selectImage_of_selected env i s h]
      constructor
      · rw [(updateOverlayPosition_fields env s).2.2.1, h4, ho]; rfl
      · simp [updateOverlayPosition, h, ho]
  · rw [selectImage_fresh env i s h]
    refine ⟨?_, rfl⟩
    show (removeOverlay s).overlayCount + 1 = 1
    unfold removeOverlay
    rcases ho : s.overlay with _ | r <;> simp [h4, ho]

/-- C7: selecting the image that is already selected only re-syncs the
overlay position; for distinct images a ≠ b, selecting a and then b
yields exactly the state that selecting b alone yields — with exactly
one overlay node in the document, aligned with image b. -/
theorem c7_select_algebra (env : EditorEnv) (s : ResizerState) (a b : Nat)
    (hinv : Inv s) (hab : a ≠ b) :
    selectImage env b (selectImage env a s) = selectImage env b s
    ∧ selectImage env a (selectImage env a s)
        = updateOverlayPosition env (selectImage env a s)
    ∧ (selectImage env b (selectImage env a s)).selectedImage = some b
    ∧ (selectImage env b (selectImage env a s)).overlayCount = 1
    ∧ (selectImage env b (selectImage env a s)).overlay =
        some ⟨(env.pos b).1, (env.pos b).2,
              (curDims env s.dimsOverride b).1, (curDims env s.dimsOverride b).2⟩ := by
  have htb : ¬ (selectImage env a s).selectedImage = some b := by
    rw [selectImage_selectedImage]
    exact fun hc => hab (Option.some.inj hc)
  have hmain : selectImage env b (selectImage env a s) = selectImage env b s := by
    by_cases hsb : s.selectedImage = some b
    · obtain ⟨h1, h2, h3, h4⟩ := hinv
      have hov : s.overlay.isSome = true := h1.mpr (by simp [hsb])
      rcases ho : s.overlay with _ | r
      · rw [ho] at hov; simp at hov
      · rw [selectImage_fresh env b _ htb, removeOverlay_selectImage,
            selectImage_dimsOverride, selectImage_of_selected env b s hsb]
        rw [ho] at h4
        simp only [Option.isSome_some, if_true] at h4
        rw [ho] at h2 h3
        simp only [Option.isSome_some] at h2 h3
        unfold updateOverlayPosition removeOverlay
        rw [hsb, ho]
        simp [hsb, ho, h2, h3, h4]
    · rw [selectImage_fresh env b _ htb, selectImage_fresh env b s hsb,
          removeOverlay_selectImage, selectImage_dimsOverride]
  refine ⟨hmain, selectImage_of_selected env a _ (selectImage_selectedImage env a s),
          ?_, ?_, ?_⟩
  · rw [hmain]; exact selectImage_selectedImage env b s
  · rw [hmain]; exact (selectImage_spec env b s hinv).1
  · rw [hmain]; exact (selectImage_spec env b s hinv).2

/-- C7 witness: from the fresh controller state, selecting image 0 then
image 1 equals selecting image 1 alone; re-selecting 0 after selecting 0
is just the position re-sync; after 0-then-1 there is exactly one
overlay, aligned with image 1. -/
theorem c7_select_algebra_witness :
    selectImage envA 1 (selectImage envA 0 init) = selectImage envA 1 init
    ∧ selectImage envA 0 (selectImage envA 0 init)
        = updateOverlayPosition envA (selectImage envA 0 init)
    ∧ (selectImage envA 1 (selectImage envA 0 init)).selectedImage = some 1
    ∧ (selectImage envA 1 (selectImage envA 0 init)).overlayCount = 1
    ∧ (selectImage envA 1 (selectImage envA 0 init)).overlay =
        some ⟨(envA.pos 1).1, (envA.pos 1).2,
              (curDims envA init.dimsOverride 1).1, (curDims envA init.dimsOverride 1).2⟩ :=
  c7_select_algebra envA init 0 1 (by decide) (by decide)

end QuillImageResizer
